import Mathlib

/-!
Verification development for the TxGuard monitoring and analysis engine,
shallowly embedded from the TypeScript sources
`client/src/failureClassifier.ts`, `client/src/txListener.ts` and
`client/src/utils/priorityFeeAnalyzer.ts`.

Modelling conventions:
* JS numbers holding ledger counters are modelled as `Int` (they are used
  as integers; subtraction may go negative).
* Success rates, fees and effectiveness values are modelled as `Rat`; all
  values the claims touch are exactly representable.
* Classifier confidences are modelled as naturals scaled by ten
  (1.0 maps to 10, 0.9 to 9, ..., 0.1 to 1), all exactly representable.
* Wall-clock fields (`lastUpdated`, `timestamp`, the `mock-...` signature
  string) are omitted: no claim and no comparison in the source reads them.
-/

namespace TxGuard

/-- JS values that can reach `FailureClassifier.classify`: `null`,
`undefined`, a string, or a number (the cases the guard
`!errorLog || typeof errorLog !== 'string'` distinguishes). -/
inductive JsVal where
  | jsNull
  | jsUndef
  | jsStr (s : String)
  | jsNum (n : Int)
  deriving DecidableEq, Repr

/-- JS truthiness for the modelled values: `null`, `undefined`, the empty
string and the number zero are falsy. -/
def JsVal.truthy : JsVal → Bool
  | .jsNull => false
  | .jsUndef => false
  | .jsStr s => !(s = "")
  | .jsNum n => !(n = 0)

/-- Character-wise lower-casing, JS `String.prototype.toLowerCase` on the
ASCII inputs the rule table contains. -/
def lowerStr (s : String) : String := ⟨s.data.map Char.toLower⟩

/-- Substring containment on character lists: `strIncludes s p` is `true`
iff `p` occurs contiguously in `s` (JS `String.prototype.includes`). -/
def strIncludes : List Char → List Char → Bool
  | [], p => p.isEmpty
  | c :: t, p => p.isPrefixOf (c :: t) || strIncludes t p

/-- Failure categories as their numeric codes (`FailureType` in
`types.ts`): 0 SLIPPAGE_EXCEEDED, 1 INSUFFICIENT_LIQUIDITY,
2 MEV_DETECTED, 3 DROPPED_TX, 4 INSUFFICIENT_FUNDS, 5 OTHER. -/
abbrev FailureType := Nat

/-- The ordered phrase-to-category rule table `ERROR_PATTERNS`; JS object
string keys enumerate in insertion order, which is the source order. -/
def ERROR_PATTERNS : List (String × FailureType) :=
  [("slippage tolerance exceeded", 0),
   ("slippage exceeded", 0),
   ("price impact too high", 0),
   ("minimum amount out", 0),
   ("amount out below minimum", 0),
   ("insufficient liquidity", 1),
   ("liquidity not available", 1),
   ("pool not found", 1),
   ("reserve not found", 1),
   ("no liquidity", 1),
   ("mev detected", 2),
   ("sandwich attack", 2),
   ("frontrun detected", 2),
   ("arbitrage detected", 2),
   ("price manipulation", 2),
   ("account not found", 3),
   ("blockhash not found", 3),
   ("blockhash too old", 3),
   ("transaction expired", 3),
   ("dropped transaction", 3),
   ("transaction not found", 3),
   ("insufficient funds", 4),
   ("insufficient lamports", 4),
   ("insufficient sol", 4),
   ("insufficient balance", 4),
   ("not enough funds", 4),
   ("insufficient token balance", 4),
   ("insufficientfundsforrent", 4),
   ("exceeded compute unit limit", 4),
   ("compute budget exceeded", 4),
   ("program failed to complete", 4),
   ("account already exists", 4),
   ("account does not exist", 3),
   ("invalid account", 3),
   ("program error", 5),
   ("instruction error", 5),
   ("custom program error", 5),
   ("unknown error", 5)]

/-- High-signal keywords used by `calculateConfidence`. -/
def keyWords : List String :=
  ["insufficient", "slippage", "liquidity", "funds", "dropped", "mev"]

/-- Confidence scoring of `FailureClassifier.calculateConfidence`,
scaled by ten: 10 for an exact match, 9 for a match at the start, 8 for a
match at the end, 7 when the pattern contains a high-signal keyword,
else 6. -/
def calculateConfidence (pat errorText : String) : Nat :=
  if errorText = pat then 10
  else if pat.data.isPrefixOf errorText.data then 9
  else if pat.data.isSuffixOf errorText.data then 8
  else if keyWords.any (fun w => strIncludes pat.data w.data) then 7
  else 6

/-- One keyword-fallback candidate list (`findPartialMatches`): each
check contributes its category; confidence is uniformly 0.5. -/
def findPartialMatches (t : List Char) : List FailureType :=
  (if strIncludes t "slippage".data || strIncludes t "price".data
   then [0] else []) ++
  (if strIncludes t "liquidity".data || strIncludes t "pool".data
   then [1] else []) ++
  (if strIncludes t "mev".data || strIncludes t "sandwich".data ||
      strIncludes t "frontrun".data
   then [2] else []) ++
  (if strIncludes t "not found".data || strIncludes t "expired".data ||
      strIncludes t "old".data
   then [3] else []) ++
  (if strIncludes t "insufficient".data || strIncludes t "funds".data ||
      strIncludes t "balance".data
   then [4] else [])

/-- Core of `classify` on the lower-cased text: first rule of the table
whose phrase is contained in the text wins; otherwise the first
keyword-fallback candidate at confidence 0.5; otherwise Other at 0.1.
Returns (category, confidence scaled by ten). -/
def classifyCore (lowerError : String) : FailureType × Nat :=
  match ERROR_PATTERNS.find? (fun pt => strIncludes lowerError.data pt.1.data) with
  | some pt => (pt.2, calculateConfidence pt.1 lowerError)
  | none =>
    match findPartialMatches lowerError.data with
    | ty :: _ => (ty, 5)
    | [] => (5, 1)

/-- Result record of `classify` (`FailureClassification` in `types.ts`);
`originalError` keeps the raw input value. -/
structure FailureClassification where
  ftype : FailureType
  confidence10 : Nat
  originalError : JsVal
  deriving DecidableEq, Repr

/-- `FailureClassifier.classify`: absent, non-string or empty input short
circuits to Other at confidence 0 with `originalError` set to
`errorLog || 'Empty error'`; otherwise the rule table and fallbacks run
on the lower-cased text. -/
def classify (errorLog : JsVal) : FailureClassification :=
  match errorLog with
  | .jsStr s =>
    if s = "" then
      { ftype := 5, confidence10 := 0, originalError := .jsStr "Empty error" }
    else
      let r := classifyCore (lowerStr s)
      { ftype := r.1, confidence10 := r.2, originalError := .jsStr s }
  | v =>
    { ftype := 5, confidence10 := 0,
      originalError := if v.truthy then v else .jsStr "Empty error" }

/-! ## Ledger snapshot data model (`types.ts`) -/

/-- `TransactionRegistryData`: the registry PDA counters as fetched by
`fetchRegistryData`. -/
structure TransactionRegistryData where
  txCount : Int
  successCount : Int
  failureCount : Int
  last100Outcomes : List Int
  cursor : Int
  deriving DecidableEq, Repr

/-- `FailureCatalogData`: the six per-category failure counters. -/
structure FailureCatalogData where
  slippageExceeded : Int
  insufficientLiquidity : Int
  mevDetected : Int
  droppedTx : Int
  insufficientFunds : Int
  other : Int
  deriving DecidableEq, Repr

/-- `PriorityFeeStatsData`: the per-tier usage counters (five entries for
the on-chain program). -/
structure PriorityFeeStatsData where
  tiers : List Int
  deriving DecidableEq, Repr

/-- `TxGuardStats`: the combined snapshot a poll tick builds
(`lastUpdated` omitted; nothing compared or claimed reads it). -/
structure TxGuardStats where
  registry : TransactionRegistryData
  failures : FailureCatalogData
  priorityFees : PriorityFeeStatsData
  successRate : Rat
  deriving DecidableEq, Repr

/-- `TxListener.calculateSuccessRate`: zero when `txCount` is zero, else
`successCount / txCount * 100`. -/
def calculateSuccessRate (registry : TransactionRegistryData) : Rat :=
  if registry.txCount = 0 then 0
  else (registry.successCount : Rat) / (registry.txCount : Rat) * 100

/-- The snapshot value `pollAccounts` assembles from the three fetches. -/
def mkStats (r : TransactionRegistryData) (c : FailureCatalogData)
    (p : PriorityFeeStatsData) : TxGuardStats :=
  { registry := r, failures := c, priorityFees := p,
    successRate := calculateSuccessRate r }

/-! ## Priority fee analyzer (`utils/priorityFeeAnalyzer.ts`) -/

/-- Default tier threshold map set up in the analyzer constructor
(micro-lamports); `none` models a JS `Map.get` miss (`undefined`). -/
def tierThresholds : Nat → Option Int
  | 0 => some 0
  | 1 => some 1000
  | 2 => some 5000
  | 3 => some 10000
  | 4 => some 50000
  | _ => none

/-- `getTierForFee`: highest tier whose threshold the fee meets. The
source reads the thresholds with a non-null assertion; the default map
has all five keys, so `getD 0` never fires its default. -/
def getTierForFee (feeInMicroLamports : Int) : Nat :=
  if feeInMicroLamports ≥ (tierThresholds 4).getD 0 then 4
  else if feeInMicroLamports ≥ (tierThresholds 3).getD 0 then 3
  else if feeInMicroLamports ≥ (tierThresholds 2).getD 0 then 2
  else if feeInMicroLamports ≥ (tierThresholds 1).getD 0 then 1
  else 0

/-- `getRecommendedFeeForTier`: the falsy-threshold guard
(`if (!threshold) return 0`) catches both a map miss and the zero
threshold of tier 0; otherwise `floor(threshold * 1.2)`, written as exact
integer arithmetic, which at the default thresholds coincides with the
JS double computation. -/
def getRecommendedFeeForTier (tier : Nat) : Int :=
  match tierThresholds tier with
  | none => 0
  | some th =>
    if th = 0 then 0
    else if tier = 0 then th else (th * 12) / 10

/-- `suggestTierForNetworkConditions`: middle tier below ten recorded
transactions, else fixed success-rate bands evaluated top down. -/
def suggestTierForNetworkConditions (recentStats : TxGuardStats) : Nat :=
  if recentStats.registry.txCount < 10 then 2
  else if recentStats.successRate < 50 then 4
  else if recentStats.successRate < 70 then 3
  else if recentStats.successRate < 85 then 2
  else if recentStats.successRate < 95 then 1
  else 0

/-- Fixed tier multiplier table of `estimateTierSuccessRate`. -/
def tierMultipliers : List Rat := [7/10, 8/10, 9/10, 95/100, 98/100]

/-- `estimateTierSuccessRate`: overall success rate scaled by the tier
multiplier (indices outside the table keep the base rate). -/
def estimateTierSuccessRate (tier : Nat) (stats : TxGuardStats) : Rat :=
  let baseSuccessRate := stats.successRate / 100
  match tierMultipliers.get? tier with
  | some m => baseSuccessRate * m * 100
  | none => baseSuccessRate * 100

/-- Effectiveness record built by the loop in `analyzeFromStats`: keys
0..4 start at zero and key `i` is overwritten with the estimate when the
tier has non-zero usage (the on-chain tier array has five entries). -/
def tierEffectiveness (stats : TxGuardStats) (i : Nat) : Rat :=
  match stats.priorityFees.tiers.get? i with
  | some tierTxs => if tierTxs > 0 then estimateTierSuccessRate i stats else 0
  | none => 0

/-- `findOptimalTier`: argmax over tiers 0..4 with strict improvement
only, starting from the default middle tier at rate 0. -/
def findOptimalTier (effectiveness : Nat → Rat) : Nat :=
  (([0, 1, 2, 3, 4] : List Nat).foldl
    (fun acc i => if effectiveness i > acc.2 then (i, effectiveness i) else acc)
    (2, (0 : Rat))).1

/-- `calculateAverageFee`: threshold average weighted by
effectiveness / 100; zero total weight yields zero. -/
def calculateAverageFee (effectiveness : Nat → Rat) : Rat :=
  let totalWeightedFee := (([0, 1, 2, 3, 4] : List Nat).foldl
    (fun acc i => acc + ((tierThresholds i).getD 0 : Rat) * (effectiveness i / 100)) 0)
  let totalWeight := (([0, 1, 2, 3, 4] : List Nat).foldl
    (fun acc i => acc + effectiveness i / 100) 0)
  if totalWeight > 0 then totalWeightedFee / totalWeight else 0

/-- Result of `analyzeFromStats` (`PriorityFeeAnalysis` in `types.ts`,
`lastAnalyzed` omitted); `tierEffectivenessList` lists the record values
at keys 0..4. -/
structure PriorityFeeAnalysis where
  recommendedTier : Nat
  tierEffectivenessList : List Rat
  averageFee : Rat
  deriving DecidableEq, Repr

/-- `PriorityFeeAnalyzer.analyzeFromStats`. -/
def analyzeFromStats (stats : TxGuardStats) : PriorityFeeAnalysis :=
  let eff := tierEffectiveness stats
  { recommendedTier := findOptimalTier eff
    tierEffectivenessList := ([0, 1, 2, 3, 4] : List Nat).map eff
    averageFee := calculateAverageFee eff }

/-! ## Snapshot poller (`txListener.ts`) -/

/-- `TxListener.hasStatsChanged`: first poll always counts as changed;
otherwise the three registry counters plus the failure catalog and the
tier array are compared. The source compares the latter two by
`JSON.stringify`, which on these flat records of numbers with fixed key
order coincides with structural equality. -/
def hasStatsChanged (lastStats : Option TxGuardStats) (newStats : TxGuardStats) : Bool :=
  match lastStats with
  | none => true
  | some l =>
    newStats.registry.txCount != l.registry.txCount ||
    newStats.registry.successCount != l.registry.successCount ||
    newStats.registry.failureCount != l.registry.failureCount ||
    newStats.failures != l.failures ||
    newStats.priorityFees != l.priorityFees

/-- `TxListener.detectFailureTypeFromChanges`: first category whose
counter increased, scanned in the fixed order slippage, liquidity, mev,
dropped, funds; Other (5) when none increased. -/
def detectFailureTypeFromChanges (newStats oldStats : TxGuardStats) : Nat :=
  if newStats.failures.slippageExceeded > oldStats.failures.slippageExceeded then 0
  else if newStats.failures.insufficientLiquidity > oldStats.failures.insufficientLiquidity then 1
  else if newStats.failures.mevDetected > oldStats.failures.mevDetected then 2
  else if newStats.failures.droppedTx > oldStats.failures.droppedTx then 3
  else if newStats.failures.insufficientFunds > oldStats.failures.insufficientFunds then 4
  else 5

/-- Index scan of `detectPriorityTierFromChanges`: the JS loop runs over
the new tier array and a comparison against a missing old entry is
false, so a shorter old array ends the scan at the default. -/
def firstIncreasedTier : List Int → List Int → Nat → Nat
  | [], _, _ => 2
  | _ :: _, [], _ => 2
  | t :: ts, o :: os, i => if t > o then i else firstIncreasedTier ts os (i + 1)

/-- `TxListener.detectPriorityTierFromChanges`: first tier index whose
usage counter increased, default middle tier 2. -/
def detectPriorityTierFromChanges (newStats oldStats : TxGuardStats) : Nat :=
  firstIncreasedTier newStats.priorityFees.tiers oldStats.priorityFees.tiers 0

/-- One synthesized transaction event (`TxRecordedEvent` in `types.ts`;
the wall-clock signature and timestamp are omitted). -/
structure TxRecordedEvent where
  success : Bool
  failureType : Nat
  priorityFeeTier : Nat
  deriving DecidableEq, Repr

/-- `TxListener.detectNewTransactions` viewed as a function of the fresh
snapshot and of the `this.lastStats` value it reads: no previous state
means no events; otherwise one event per unit of positive
transaction-count delta, the i-th a success exactly when
`i < successDiff`. -/
def detectNewTransactions (newStats : TxGuardStats)
    (lastStats : Option TxGuardStats) : List TxRecordedEvent :=
  match lastStats with
  | none => []
  | some old =>
    let txDiff := newStats.registry.txCount - old.registry.txCount
    let successDiff := newStats.registry.successCount - old.registry.successCount
    (List.range txDiff.toNat).map fun i =>
      let isSuccess : Bool := decide ((i : Int) < successDiff)
      { success := isSuccess
        failureType := if isSuccess then 0 else detectFailureTypeFromChanges newStats old
        priorityFeeTier := detectPriorityTierFromChanges newStats old }

/-- Mutable listener state relevant to the claims: the retained snapshot,
the error counter, the recorded last error and the polling flag. -/
structure ListenerState where
  lastStats : Option TxGuardStats
  errorCount : Nat
  lastError : Option String
  isPolling : Bool
  deriving DecidableEq, Repr

/-- Observable outcome of one poll tick: the successor state plus the
event lists; each list entry is delivered to every subscriber of the
corresponding kind, in order. -/
structure TickResult where
  state : ListenerState
  statsEvents : List TxGuardStats
  txEvents : List TxRecordedEvent
  errorEvents : List String
  deriving DecidableEq, Repr

/-- `TxListener.handleError`: bump the error counter, record the error,
notify every error subscriber; nothing else changes. -/
def handleError (st : ListenerState) (e : String) : TickResult :=
  { state := { st with errorCount := st.errorCount + 1, lastError := some e }
    statsEvents := [], txEvents := [], errorEvents := [e] }

/-- `TxListener.pollAccounts` on the outcome of the three fetches (a
rejected fetch carries its error message; with several rejections
`Promise.all` surfaces one of them — modelled as the first in fetch
order, which no claim distinguishes). On success the source assigns
`this.lastStats = newStats` before `detectNewTransactions` reads
`this.lastStats`; the embedding preserves that order faithfully. -/
def pollAccounts (st : ListenerState)
    (registryRes : Except String TransactionRegistryData)
    (catalogRes : Except String FailureCatalogData)
    (priorityRes : Except String PriorityFeeStatsData) : TickResult :=
  match registryRes, catalogRes, priorityRes with
  | .ok r, .ok c, .ok p =>
    let newStats := mkStats r c p
    if hasStatsChanged st.lastStats newStats then
      let st1 := { st with lastStats := some newStats }
      { state := st1
        statsEvents := [newStats]
        txEvents := detectNewTransactions newStats st1.lastStats
        errorEvents := [] }
    else
      { state := st, statsEvents := [], txEvents := [], errorEvents := [] }
  | .error e, _, _ => handleError st e
  | _, .error e, _ => handleError st e
  | _, _, .error e => handleError st e

/-- `TxListener.forcePoll`: one out-of-band `pollAccounts` tick, also
returning the retained stats view. -/
def forcePoll (st : ListenerState)
    (registryRes : Except String TransactionRegistryData)
    (catalogRes : Except String FailureCatalogData)
    (priorityRes : Except String PriorityFeeStatsData) :
    TickResult × Option TxGuardStats :=
  let t := pollAccounts st registryRes catalogRes priorityRes
  (t, t.state.lastStats)

/-! ## Concrete fixtures shared by witnesses and counterexamples -/

/-- All-zero failure catalog. -/
def catalog0 : FailureCatalogData := ⟨0, 0, 0, 0, 0, 0⟩

/-- All-zero tier usage. -/
def tiers0 : PriorityFeeStatsData := ⟨[0, 0, 0, 0, 0]⟩

/-- Empty registry. -/
def reg0 : TransactionRegistryData := ⟨0, 0, 0, [], 0⟩

/-- Snapshot of the empty ledger. -/
def stats0 : TxGuardStats := mkStats reg0 catalog0 tiers0

/-! ## Claim-worded attribution rule (for comparison with the source)

The specification assigns failure types to the synthesized failure
events of one tick with consumption: each event takes the first category
whose delta still has unconsumed increase and uses one unit of it. The
source has no such bookkeeping; these definitions follow the words of
the specification so the two behaviours can be compared. -/

/-- First index of a positive delta, counting from `i`. -/
def specFirstIncreased : List Int → Nat → Option Nat
  | [], _ => none
  | d :: ds, i => if d > 0 then some i else specFirstIncreased ds (i + 1)

/-- Consume one unit of the delta at the given index. -/
def specConsume : List Int → Nat → List Int
  | [], _ => []
  | d :: ds, 0 => (d - 1) :: ds
  | d :: ds, i + 1 => d :: specConsume ds i

/-- Claim-worded assignment of failure types to the successive failure
events of one tick: first unconsumed increased category, else Other. -/
def claimFailureTypesAux : Nat → List Int → List Nat
  | 0, _ => []
  | k + 1, deltas =>
    match specFirstIncreased deltas 0 with
    | some i => i :: claimFailureTypesAux k (specConsume deltas i)
    | none => 5 :: claimFailureTypesAux k deltas

/-- The six failure-count deltas of a tick in scan order. -/
def failureDeltas (newStats oldStats : TxGuardStats) : List Int :=
  [newStats.failures.slippageExceeded - oldStats.failures.slippageExceeded,
   newStats.failures.insufficientLiquidity - oldStats.failures.insufficientLiquidity,
   newStats.failures.mevDetected - oldStats.failures.mevDetected,
   newStats.failures.droppedTx - oldStats.failures.droppedTx,
   newStats.failures.insufficientFunds - oldStats.failures.insufficientFunds,
   newStats.failures.other - oldStats.failures.other]

/-- Failure types the claim predicts for the given number of failure
events of one tick. -/
def claimFailureTypes (newStats oldStats : TxGuardStats) (numFailures : Nat) : List Nat :=
  claimFailureTypesAux numFailures (failureDeltas newStats oldStats)

/-! ## Helper lemmas -/

/-- Diffing a snapshot against itself synthesizes no events. -/
theorem detectNewTransactions_self (n : TxGuardStats) :
    detectNewTransactions n (some n) = [] := by
  simp [detectNewTransactions]

/-- A snapshot never counts as changed against itself. -/
theorem hasStatsChanged_self (n : TxGuardStats) :
    hasStatsChanged (some n) n = false := by
  simp [hasStatsChanged]

/-! ## Claims -/

/-- C1: the spec says a non-first tick with `cur.txCount ≥ prev.txCount`
emits `cur.txCount - prev.txCount` transaction-recorded events. The code
assigns `this.lastStats = newStats` before `detectNewTransactions` reads
`this.lastStats`, so every delta it computes is zero and no event is
ever emitted: on a tick moving the empty ledger to one successful
transaction (delta 1) the tick emits no event, while diffing against the
snapshot actually previous would have synthesized one success event. -/
theorem pollTick_increment_emits_no_events :
    (pollAccounts ⟨some stats0, 0, none, true⟩
        (.ok ⟨1, 1, 0, [], 0⟩) (.ok catalog0) (.ok tiers0)).txEvents = [] ∧
    detectNewTransactions (mkStats ⟨1, 1, 0, [], 0⟩ catalog0 tiers0) (some stats0) =
      [⟨true, 0, 2⟩] ∧
    (mkStats ⟨1, 1, 0, [], 0⟩ catalog0 tiers0).registry.txCount -
      stats0.registry.txCount = 1 := by
  decide

/-- C2 counterexample: on a tick whose deltas are two failures, slippage
+1 and liquidity +1, the claim assigns Slippage then Liquidity (the
slippage increase is consumed by the first event), but the code assigns
Slippage to both failure events: `detectFailureTypeFromChanges` keeps no
consumption state. -/
theorem detectFailureType_no_consumption_cex :
    (detectNewTransactions (mkStats ⟨2, 0, 2, [], 0⟩ ⟨1, 1, 0, 0, 0, 0⟩ tiers0)
        (some stats0)).map (fun e => e.failureType) = [0, 0] ∧
    claimFailureTypes (mkStats ⟨2, 0, 2, [], 0⟩ ⟨1, 1, 0, 0, 0, 0⟩ tiers0) stats0 2 =
      [0, 1] ∧
    ([0, 0] : List Nat) ≠ [0, 1] := by
  decide

/-- C2 amended: within one synthesis pass every event gets the tier
guess `detectPriorityTierFromChanges` (first tier index whose count
increased, default 2) and every failure event gets the failure type
`detectFailureTypeFromChanges` (first category in the fixed order
Slippage, Liquidity, Mev, Dropped, Funds whose count increased, default
Other) — with no consumption, so all failure events of a tick share one
type and all events share one tier guess. -/
theorem detectNewTransactions_uniform_attribution
    (newStats oldStats : TxGuardStats) (e : TxRecordedEvent)
    (he : e ∈ detectNewTransactions newStats (some oldStats)) :
    e.priorityFeeTier = detectPriorityTierFromChanges newStats oldStats ∧
    (e.success = false → e.failureType = detectFailureTypeFromChanges newStats oldStats) := by
  simp only [detectNewTransactions, List.mem_map, List.mem_range] at he
  obtain ⟨i, hi, rfl⟩ := he
  refine ⟨rfl, fun hs => ?_⟩
  simp only at hs ⊢
  simp [hs]

/-- C2 witness: a concrete tick with one slippage failure instantiates
the amended attribution statement. -/
theorem detectNewTransactions_uniform_attribution_witness :
    ((⟨false, 0, 2⟩ : TxRecordedEvent).priorityFeeTier =
        detectPriorityTierFromChanges
          (mkStats ⟨1, 0, 1, [], 0⟩ ⟨1, 0, 0, 0, 0, 0⟩ tiers0) stats0) ∧
    ((⟨false, 0, 2⟩ : TxRecordedEvent).success = false →
      (⟨false, 0, 2⟩ : TxRecordedEvent).failureType =
        detectFailureTypeFromChanges
          (mkStats ⟨1, 0, 1, [], 0⟩ ⟨1, 0, 0, 0, 0, 0⟩ tiers0) stats0) :=
  detectNewTransactions_uniform_attribution
    (mkStats ⟨1, 0, 1, [], 0⟩ ⟨1, 0, 0, 0, 0, 0⟩ tiers0) stats0 ⟨false, 0, 2⟩ (by decide)

/-- C3 counterexample: on a tick whose transaction count decreases (two
recorded transactions down to one) the tick notifies no error
subscriber — the code has no discontinuity signal, contrary to the
claim. -/
theorem pollTick_negative_delta_no_error_cex :
    (mkStats ⟨1, 1, 0, [], 0⟩ catalog0 tiers0).registry.txCount <
      (mkStats ⟨2, 1, 1, [], 0⟩ catalog0 tiers0).registry.txCount ∧
    (pollAccounts ⟨some (mkStats ⟨2, 1, 1, [], 0⟩ catalog0 tiers0), 0, none, true⟩
        (.ok ⟨1, 1, 0, [], 0⟩) (.ok catalog0) (.ok tiers0)).errorEvents = [] := by
  decide

/-- C3 amended: on a poll tick whose transaction-count delta is negative
the poller adopts the new snapshot as current, notifies stats-update
subscribers, and emits zero inferred transaction events; no error
subscriber is notified (the code has no discontinuity signal). -/
theorem pollTick_negative_delta (st : ListenerState) (prev : TxGuardStats)
    (r : TransactionRegistryData) (c : FailureCatalogData) (p : PriorityFeeStatsData)
    (hl : st.lastStats = some prev)
    (hneg : r.txCount < prev.registry.txCount) :
    (pollAccounts st (.ok r) (.ok c) (.ok p)).state.lastStats = some (mkStats r c p) ∧
    (pollAccounts st (.ok r) (.ok c) (.ok p)).statsEvents = [mkStats r c p] ∧
    (pollAccounts st (.ok r) (.ok c) (.ok p)).txEvents = [] ∧
    (pollAccounts st (.ok r) (.ok c) (.ok p)).errorEvents = [] := by
  have hch : hasStatsChanged st.lastStats (mkStats r c p) = true := by
    have hne2 : r.txCount ≠ prev.registry.txCount := ne_of_lt hneg
    rw [hl]
    simp [hasStatsChanged, mkStats, hne2]
  simp [pollAccounts, hch, detectNewTransactions_self]

/-- C3 witness: the amended statement instantiated at a concrete tick
moving two recorded transactions down to one. -/
theorem pollTick_negative_delta_witness :
    (pollAccounts ⟨some (mkStats ⟨2, 1, 1, [], 0⟩ catalog0 tiers0), 0, none, true⟩
        (.ok ⟨1, 1, 0, [], 0⟩) (.ok catalog0) (.ok tiers0)).state.lastStats =
      some (mkStats ⟨1, 1, 0, [], 0⟩ catalog0 tiers0) ∧
    (pollAccounts ⟨some (mkStats ⟨2, 1, 1, [], 0⟩ catalog0 tiers0), 0, none, true⟩
        (.ok ⟨1, 1, 0, [], 0⟩) (.ok catalog0) (.ok tiers0)).statsEvents =
      [mkStats ⟨1, 1, 0, [], 0⟩ catalog0 tiers0] ∧
    (pollAccounts ⟨some (mkStats ⟨2, 1, 1, [], 0⟩ catalog0 tiers0), 0, none, true⟩
        (.ok ⟨1, 1, 0, [], 0⟩) (.ok catalog0) (.ok tiers0)).txEvents = [] ∧
    (pollAccounts ⟨some (mkStats ⟨2, 1, 1, [], 0⟩ catalog0 tiers0), 0, none, true⟩
        (.ok ⟨1, 1, 0, [], 0⟩) (.ok catalog0) (.ok tiers0)).errorEvents = [] :=
  pollTick_negative_delta _ (mkStats ⟨2, 1, 1, [], 0⟩ catalog0 tiers0) _ _ _ rfl (by decide)

/-- C4 counterexample: the table phrase "custom program error" contains
the earlier phrase "program error" as a (suffix) substring, so the first
matching rule is "program error" and the confidence is 0.8, not 1.0. -/
theorem classify_exact_phrase_cex :
    ("custom program error", 5) ∈ ERROR_PATTERNS ∧
    classify (.jsStr "custom program error") =
      { ftype := 5, confidence10 := 8,
        originalError := .jsStr "custom program error" } ∧
    (8 : Nat) ≠ 10 := by
  decide

/-- C4 amended: for every input string that lower-cases to a phrase of
the rule table, classify returns that phrase's category with confidence
exactly 1.0 — except for the phrase "custom program error", which
substring-matches the earlier rule "program error" (same category,
Other) at confidence 0.8. -/
theorem classify_exact_phrase (s p : String) (ty : FailureType)
    (hmem : (p, ty) ∈ ERROR_PATTERNS) (hlow : lowerStr s = p)
    (hne : p ≠ "custom program error") :
    classify (.jsStr s) = { ftype := ty, confidence10 := 10, originalError := .jsStr s } := by
  have htab : ∀ q ∈ ERROR_PATTERNS, q.1 ≠ "" ∧
      (q.1 ≠ "custom program error" → classifyCore q.1 = (q.2, 10)) := by decide
  have hpne : p ≠ "" := (htab (p, ty) hmem).1
  have hcore : classifyCore p = (ty, 10) := (htab (p, ty) hmem).2 hne
  have hlow0 : lowerStr "" = "" := by decide
  have hs : s ≠ "" := by
    intro h
    rw [h, hlow0] at hlow
    exact hpne hlow.symm
  simp [classify, hs, hlow, hcore]

/-- C4 witness: the mixed-case input "Slippage Exceeded" lower-cases to
the table phrase "slippage exceeded" and classifies to category 0 at
confidence 1.0. -/
theorem classify_exact_phrase_witness :
    classify (.jsStr "Slippage Exceeded") =
      { ftype := 0, confidence10 := 10, originalError := .jsStr "Slippage Exceeded" } :=
  classify_exact_phrase "Slippage Exceeded" "slippage exceeded" 0
    (by decide) (by decide) (by decide)

/-- C5 counterexample: classify of `null` reports the string
"Empty error" as `originalError`, not the input as given. -/
theorem classify_null_original_cex :
    classify .jsNull =
      { ftype := 5, confidence10 := 0, originalError := .jsStr "Empty error" } ∧
    JsVal.jsStr "Empty error" ≠ .jsNull := by
  decide

/-- C5 amended: for an absent (null/undefined) or non-string input,
classify returns type Other with confidence 0, and `originalError` is
the input as given when the input is truthy, and the string
"Empty error" when it is falsy (so for null and undefined it is
"Empty error", not the input). -/
theorem classify_absent_or_nonstring (v : JsVal)
    (h : v = .jsNull ∨ v = .jsUndef ∨ ∃ n, v = .jsNum n) :
    classify v = { ftype := 5, confidence10 := 0,
                   originalError := if v.truthy then v else .jsStr "Empty error" } := by
  rcases h with rfl | rfl | ⟨n, rfl⟩ <;> rfl

/-- C5 witness: the amended statement instantiated at `null`. -/
theorem classify_absent_or_nonstring_witness :
    classify .jsNull =
      { ftype := 5, confidence10 := 0,
        originalError := if JsVal.truthy .jsNull then .jsNull else .jsStr "Empty error" } :=
  classify_absent_or_nonstring .jsNull (Or.inl rfl)

/-- C6: when any of the three fetches of a tick fails, the tick adopts
no snapshot (the retained snapshot is unchanged), increments the error
counter by one, records the error as most recent, notifies every error
subscriber, and leaves the polling flag untouched. -/
theorem pollTick_fetch_failure (st : ListenerState)
    (fr : Except String TransactionRegistryData)
    (fc : Except String FailureCatalogData)
    (fp : Except String PriorityFeeStatsData)
    (h : fr.isOk = false ∨ fc.isOk = false ∨ fp.isOk = false) :
    ∃ e, pollAccounts st fr fc fp =
      { state := { lastStats := st.lastStats, errorCount := st.errorCount + 1,
                   lastError := some e, isPolling := st.isPolling }
        statsEvents := [], txEvents := [], errorEvents := [e] } := by
  rcases fr with e | r
  · exact ⟨e, by cases fc <;> cases fp <;> rfl⟩
  · rcases fc with e | c
    · exact ⟨e, by cases fp <;> rfl⟩
    · rcases fp with e | p
      · exact ⟨e, rfl⟩
      · simp [Except.isOk, Except.toBool] at h

/-- C6 witness: a concrete failing registry fetch instantiates the fetch
failure statement. -/
theorem pollTick_fetch_failure_witness :
    ∃ e, pollAccounts ⟨none, 0, none, true⟩
        (.error "fetch failed") (.ok catalog0) (.ok tiers0) =
      { state := { lastStats := none, errorCount := 0 + 1,
                   lastError := some e, isPolling := true }
        statsEvents := [], txEvents := [], errorEvents := [e] } :=
  pollTick_fetch_failure ⟨none, 0, none, true⟩ (.error "fetch failed")
    (.ok catalog0) (.ok tiers0) (Or.inl rfl)

/-- C7: two forcePoll ticks against unchanged external ledger data emit
no stats-update notification the second time: after the first tick the
field-by-field no-change detection reports unchanged and the second tick
terminates with no notification of any kind and no state change. -/
theorem forcePoll_idempotent (st : ListenerState)
    (r : TransactionRegistryData) (c : FailureCatalogData) (p : PriorityFeeStatsData) :
    hasStatsChanged ((forcePoll st (.ok r) (.ok c) (.ok p)).1.state.lastStats)
      (mkStats r c p) = false ∧
    (forcePoll ((forcePoll st (.ok r) (.ok c) (.ok p)).1.state)
      (.ok r) (.ok c) (.ok p)).1.statsEvents = [] ∧
    (forcePoll ((forcePoll st (.ok r) (.ok c) (.ok p)).1.state)
      (.ok r) (.ok c) (.ok p)).1.txEvents = [] ∧
    (forcePoll ((forcePoll st (.ok r) (.ok c) (.ok p)).1.state)
      (.ok r) (.ok c) (.ok p)).1.errorEvents = [] ∧
    (forcePoll ((forcePoll st (.ok r) (.ok c) (.ok p)).1.state)
      (.ok r) (.ok c) (.ok p)).1.state = (forcePoll st (.ok r) (.ok c) (.ok p)).1.state := by
  have key : hasStatsChanged
      ((pollAccounts st (.ok r) (.ok c) (.ok p)).state.lastStats) (mkStats r c p) = false := by
    by_cases h : hasStatsChanged st.lastStats (mkStats r c p) = true
    · simp [pollAccounts, h, hasStatsChanged_self]
    · have h0 : hasStatsChanged st.lastStats (mkStats r c p) = false := by simpa using h
      simp [pollAccounts, h0]
  have hsecond : pollAccounts ((pollAccounts st (.ok r) (.ok c) (.ok p)).state)
      (.ok r) (.ok c) (.ok p) =
      { state := (pollAccounts st (.ok r) (.ok c) (.ok p)).state
        statsEvents := [], txEvents := [], errorEvents := [] } := by
    generalize (pollAccounts st (.ok r) (.ok c) (.ok p)).state = st2 at key ⊢
    simp [pollAccounts, key]
  refine ⟨by simpa [forcePoll] using key, ?_, ?_, ?_, ?_⟩ <;> simp [forcePoll, hsecond]

/-- C8: with at least ten recorded transactions the suggested tier is a
monotonically non-increasing step function of the success rate following
the fixed bands, a success rate of exactly 85 maps to tier 1, and below
ten recorded transactions the suggestion is always the middle tier. -/
theorem suggestTier_monotone_bands (s1 s2 : TxGuardStats)
    (h1 : (10 : Int) ≤ s1.registry.txCount)
    (h2 : (10 : Int) ≤ s2.registry.txCount)
    (hle : s1.successRate ≤ s2.successRate) :
    suggestTierForNetworkConditions s2 ≤ suggestTierForNetworkConditions s1 ∧
    suggestTierForNetworkConditions s1 =
      (if s1.successRate < 50 then 4 else if s1.successRate < 70 then 3
       else if s1.successRate < 85 then 2 else if s1.successRate < 95 then 1 else 0) ∧
    (s1.successRate = 85 → suggestTierForNetworkConditions s1 = 1) ∧
    (∀ s3 : TxGuardStats, s3.registry.txCount < 10 →
      suggestTierForNetworkConditions s3 = 2) := by
  have g1 : ¬ s1.registry.txCount < 10 := not_lt.mpr h1
  have g2 : ¬ s2.registry.txCount < 10 := not_lt.mpr h2
  refine ⟨?_, ?_, ?_, ?_⟩
  · unfold suggestTierForNetworkConditions
    rw [if_neg g1, if_neg g2]
    split_ifs <;> first | omega | (exfalso; linarith)
  · unfold suggestTierForNetworkConditions
    rw [if_neg g1]
  · intro h85
    unfold suggestTierForNetworkConditions
    rw [if_neg g1, h85]
    norm_num
  · intro s3 h3
    unfold suggestTierForNetworkConditions
    rw [if_pos h3]

/-- C8 witness: snapshots with success rates 85 (17 of 20) and 90
(9 of 10) instantiate the monotone band statement; the 85-rate snapshot
maps to tier 1. -/
theorem suggestTier_monotone_bands_witness :
    suggestTierForNetworkConditions (mkStats ⟨10, 9, 1, [], 0⟩ catalog0 tiers0) ≤
      suggestTierForNetworkConditions (mkStats ⟨20, 17, 3, [], 0⟩ catalog0 tiers0) ∧
    suggestTierForNetworkConditions (mkStats ⟨20, 17, 3, [], 0⟩ catalog0 tiers0) =
      (if (mkStats ⟨20, 17, 3, [], 0⟩ catalog0 tiers0).successRate < 50 then 4
       else if (mkStats ⟨20, 17, 3, [], 0⟩ catalog0 tiers0).successRate < 70 then 3
       else if (mkStats ⟨20, 17, 3, [], 0⟩ catalog0 tiers0).successRate < 85 then 2
       else if (mkStats ⟨20, 17, 3, [], 0⟩ catalog0 tiers0).successRate < 95 then 1
       else 0) ∧
    ((mkStats ⟨20, 17, 3, [], 0⟩ catalog0 tiers0).successRate = 85 →
      suggestTierForNetworkConditions (mkStats ⟨20, 17, 3, [], 0⟩ catalog0 tiers0) = 1) ∧
    (∀ s3 : TxGuardStats, s3.registry.txCount < 10 →
      suggestTierForNetworkConditions s3 = 2) :=
  suggestTier_monotone_bands
    (mkStats ⟨20, 17, 3, [], 0⟩ catalog0 tiers0)
    (mkStats ⟨10, 9, 1, [], 0⟩ catalog0 tiers0)
    (by decide) (by decide)
    (by norm_num [mkStats, calculateSuccessRate])

/-- C9: under the default thresholds the recommended fees for tiers
0..4 are 0, 1200, 6000, 12000, 60000 (floor of threshold times 1.2 for
the non-zero tiers, 0 for tier 0) and the round trip
`getTierForFee (getRecommendedFeeForTier t)` lands at or above `t` for
every tier. -/
theorem tier_fee_round_trip :
    ∀ t : Fin 5,
      t.val ≤ getTierForFee (getRecommendedFeeForTier t.val) ∧
      [getRecommendedFeeForTier 0, getRecommendedFeeForTier 1, getRecommendedFeeForTier 2,
       getRecommendedFeeForTier 3, getRecommendedFeeForTier 4] =
        [0, 1200, 6000, 12000, 60000] := by
  decide

/-- C10: on a snapshot with zero transactions every tier effectiveness
value is 0, the recommended tier falls back to the middle tier 2, and
the average fee is 0 (zero total weight). -/
theorem analyzeFromStats_zero_txCount (r : TransactionRegistryData)
    (c : FailureCatalogData) (p : PriorityFeeStatsData) (h : r.txCount = 0) :
    (analyzeFromStats (mkStats r c p)).averageFee = 0 ∧
    (analyzeFromStats (mkStats r c p)).recommendedTier = 2 ∧
    (analyzeFromStats (mkStats r c p)).tierEffectivenessList = [0, 0, 0, 0, 0] := by
  have hsr : (mkStats r c p).successRate = 0 := by
    simp [mkStats, calculateSuccessRate, h]
  have hest : ∀ i, estimateTierSuccessRate i (mkStats r c p) = 0 := by
    intro i
    simp only [estimateTierSuccessRate, hsr]
    rcases hm : tierMultipliers.get? i with _ | m <;> simp [hm]
  have heff : ∀ i, tierEffectiveness (mkStats r c p) i = 0 := by
    intro i
    unfold tierEffectiveness
    rw [hest]
    rcases hg : (mkStats r c p).priorityFees.tiers.get? i with _ | v <;> simp [hg]
  refine ⟨?_, ?_, ?_⟩
  · simp [analyzeFromStats, calculateAverageFee, heff]
  · simp [analyzeFromStats, findOptimalTier, heff]
  · simp [analyzeFromStats, heff]

/-- C10 witness: the zero-transaction statement instantiated at the
empty ledger snapshot. -/
theorem analyzeFromStats_zero_txCount_witness :
    (analyzeFromStats (mkStats reg0 catalog0 tiers0)).averageFee = 0 ∧
    (analyzeFromStats (mkStats reg0 catalog0 tiers0)).recommendedTier = 2 ∧
    (analyzeFromStats (mkStats reg0 catalog0 tiers0)).tierEffectivenessList =
      [0, 0, 0, 0, 0] :=
  analyzeFromStats_zero_txCount reg0 catalog0 tiers0 rfl

end TxGuard
